import Mathlib

/-!
Shallow embedding of the `@ascnd-gg/client` TypeScript library
(`src/client.ts` and `src/types.ts`): client configuration checks,
gRPC-Web transport construction, the auth interceptor, the three facade
operations, and the error normalizer `AscndClient.convertError`.
-/

namespace Ascnd

universe u

/-- A JavaScript value of an optional slot as seen at runtime:
`undefined`, `null`, or an actual value.  Models TS fields declared with
`?` together with the values JS callers can actually pass. -/
inductive JsNullable (α : Type) where
  | undef
  | null
  | val (a : α)
deriving DecidableEq

/-- The JS nullish-coalescing operator `a ?? d`: the default applies
exactly when the left operand is `null` or `undefined`; every other
value (including `0` for numbers) passes through. -/
def JsNullable.coalesce {α : Type} : JsNullable α → α → α
  | .val a, _ => a
  | .undef, d => d
  | .null, d => d

/-- Header map of an outgoing call.  Modelled as an association list;
fetch-style case normalization is omitted because every header name in
this development is already lowercase. -/
abbrev Headers := List (String × String)

/-- `Headers.set name value` (fetch `Headers.set`): replaces every
existing entry for `name` with the single pair `(name, value)`. -/
def Headers.set (h : Headers) (name value : String) : Headers :=
  (h.filter (fun p => p.1 != name)) ++ [(name, value)]

/-- Header lookup. -/
def Headers.get (h : Headers) (name : String) : Option String :=
  (h.find? (fun p => p.1 == name)).map (fun p => p.2)

/-- An outgoing RPC call as the interceptor chain sees it: its header
map plus an opaque body payload. -/
structure Request where
  header : Headers
  body : String
deriving DecidableEq

/-- A call-chain interceptor: given the next link of the chain it
produces a new link.  Polymorphic in the outcome type of the chain,
mirroring `Interceptor` from `@connectrpc/connect`. -/
def Interceptor : Type 1 := (ρ : Type) → (Request → ρ) → Request → ρ

/-- The auth interceptor from `AscndClient`'s constructor: it sets the
header `x-api-key` to the configured API key and forwards the call to
`next`, returning the result of `next` unchanged. -/
def authInterceptor (apiKey : String) : Interceptor :=
  fun _ next req => next { req with header := req.header.set "x-api-key" apiKey }

/-- Options passed to `createGrpcWebTransport` by the constructor. -/
structure GrpcWebTransportOptions where
  baseUrl : String
  interceptors : List Interceptor
  defaultTimeoutMs : Int

/-- Runs an interceptor chain: the head of the list is the outermost
(first-executed) link, the wire function the innermost. -/
def applyChain : List Interceptor → (ρ : Type) → (Request → ρ) → Request → ρ
  | [], _, wire => wire
  | i :: rest, ρ, wire => i ρ (applyChain rest ρ wire)

/-- The request that actually reaches the wire when `req` is issued
through a transport built from `opts`: the interceptor chain applied to
the identity wire function. -/
def issuedRequest (opts : GrpcWebTransportOptions) (req : Request) : Request :=
  applyChain opts.interceptors Request id req

/-- `AscndClientConfig` from `src/types.ts`: `baseUrl` and `apiKey` are
required strings, `timeout` is an optional number (so at runtime it is
`undefined`, `null`, or a number). -/
structure AscndClientConfig where
  baseUrl : String
  apiKey : String
  timeout : JsNullable Int
deriving DecidableEq

/-- The plain `Error` thrown by the constructor on missing config; the
spec's taxonomy names it `ConfigurationError`. -/
structure ConfigurationError where
  message : String
deriving DecidableEq

/-- The constructor's `config.baseUrl.replace(/\/$/, "")`: the regex
matches a single `/` at the end of the string, so exactly one trailing
slash is removed when present. -/
def replaceTrailingSlash (s : String) : String :=
  if s.data.getLast? = some '/' then String.mk s.data.dropLast else s

/-- The body of `AscndClient`'s constructor, parameterized by the
transport capability `createGrpcWebTransport`: it first checks
`baseUrl` and `apiKey` for JS-falsiness (for strings: emptiness) and
throws before the transport is ever built; otherwise it builds the
transport from the documented options. -/
def AscndClient.constructWith {τ : Type u}
    (createGrpcWebTransport : GrpcWebTransportOptions → τ)
    (config : AscndClientConfig) : Except ConfigurationError τ :=
  if config.baseUrl = "" then .error ⟨"baseUrl is required"⟩
  else if config.apiKey = "" then .error ⟨"apiKey is required"⟩
  else .ok (createGrpcWebTransport
    { baseUrl := replaceTrailingSlash config.baseUrl
      interceptors := [authInterceptor config.apiKey]
      defaultTimeoutMs := config.timeout.coalesce 30000 })

/-- Construction observed at the level of the transport options the
constructor hands to `createGrpcWebTransport`. -/
def AscndClient.construct (config : AscndClientConfig) :
    Except ConfigurationError GrpcWebTransportOptions :=
  AscndClient.constructWith id config

/-- An error detail payload carried by a Connect protocol error; its
contents are opaque to the client. -/
inductive ErrorDetail where
  | payload (data : String)
deriving DecidableEq

/-- The code carried by a Connect protocol error, modelled from the
spec as its stable taxonomy token (e.g. "NOT_FOUND"); `toStr` models
the `toString()` rendering used by `convertError`. -/
structure ConnectErrorCode where
  token : String
deriving DecidableEq

/-- The string rendering of a code token. -/
def ConnectErrorCode.toStr (c : ConnectErrorCode) : String := c.token

/-- A structured Connect protocol error (`ConnectError` from
`@connectrpc/connect`): a message, a code, and a detail list that may
be empty. -/
structure ConnectError where
  message : String
  code : ConnectErrorCode
  details : List ErrorDetail
deriving DecidableEq

/-- A JavaScript value reaching a catch block of the client, split the
way `convertError`'s ordered `instanceof` tests split it: a
`ConnectError` (which is also an `Error`, but matches the first test),
any other `Error` instance carrying a message, or any non-`Error` value
(a thrown string, number, or plain object). -/
inductive RawValue where
  | connectErr (e : ConnectError)
  | errorObj (message : String)
  | other (payload : String)
deriving DecidableEq

/-- The record `{details: ...}` stored in `AscndError.details`. -/
structure DetailsRecord where
  details : List ErrorDetail
deriving DecidableEq

/-- `AscndError` from `src/types.ts`: message, code string, optional
details record. -/
structure AscndError where
  message : String
  code : String
  details : Option DetailsRecord
deriving DecidableEq

/-- `AscndClient.convertError`: first match wins.  A `ConnectError`
keeps its message and code rendering, with the details record present
exactly when `error.details?.length` is truthy (the list is nonempty);
any other `Error` keeps its message with code "UNKNOWN"; everything
else gets the fallback message. -/
def AscndClient.convertError : RawValue → AscndError
  | .connectErr e =>
      { message := e.message
        code := e.code.toStr
        details := if e.details.length != 0 then some ⟨e.details⟩ else none }
  | .errorObj msg => { message := msg, code := "UNKNOWN", details := none }
  | .other _ => { message := "Unknown error occurred", code := "UNKNOWN", details := none }

/-- Modelled from the spec: the generated message contract
`SubmitScoreRequest` (the generated `src/gen/ascnd_pb.ts` is not part
of the sources). -/
structure SubmitScoreRequest where
  leaderboardId : String
  playerId : String
  score : Int
  metadata : Option (List Nat)
  idempotencyKey : Option String
deriving DecidableEq

/-- Modelled from the spec: the generated enum of anticheat actions. -/
inductive AnticheatAction where
  | noAction
  | flag
  | shadowBan
  | reject
deriving DecidableEq

/-- Modelled from the spec: the generated enum of violation flags. -/
inductive ViolationFlagType where
  | boundsExceeded
  | velocityExceeded
  | duplicateIdempotency
  | missingIdempotencyKey
deriving DecidableEq

/-- Modelled from the spec: the generated message contract
`AnticheatViolation`. -/
structure AnticheatViolation where
  flagType : ViolationFlagType
  reason : String
deriving DecidableEq

/-- Modelled from the spec: the generated message contract
`AnticheatResult`. -/
structure AnticheatResult where
  passed : Bool
  action : AnticheatAction
  violations : List AnticheatViolation
deriving DecidableEq

/-- Modelled from the spec: the generated message contract
`SubmitScoreResponse`. -/
structure SubmitScoreResponse where
  scoreId : String
  rank : Nat
  isNewBest : Bool
  wasDeduplicated : Bool
  anticheat : Option AnticheatResult
deriving DecidableEq

/-- Modelled from the spec: the generated message contract
`GetLeaderboardRequest`. -/
structure GetLeaderboardRequest where
  leaderboardId : String
  limit : Int
  offset : Nat
  period : String
  viewSlug : Option String
deriving DecidableEq

/-- Modelled from the spec: the generated message contract
`BracketInfo`. -/
structure BracketInfo where
  name : String
  color : String
deriving DecidableEq

/-- Modelled from the spec: the generated message contract `ViewInfo`. -/
structure ViewInfo where
  slug : String
  name : String
deriving DecidableEq

/-- Modelled from the spec: the generated message contract
`LeaderboardEntry`. -/
structure LeaderboardEntry where
  rank : Nat
  playerId : String
  score : Int
  metadata : Option (List Nat)
  bracket : Option BracketInfo
deriving DecidableEq

/-- Modelled from the spec: the generated message contract
`GetLeaderboardResponse`. -/
structure GetLeaderboardResponse where
  entries : List LeaderboardEntry
  totalEntries : Nat
  periodStart : Nat
  periodEnd : Option Nat
  hasMore : Bool
  view : Option ViewInfo
deriving DecidableEq

/-- Modelled from the spec: the generated message contract
`GetPlayerRankRequest`. -/
structure GetPlayerRankRequest where
  leaderboardId : String
  playerId : String
  period : Option String
  viewSlug : Option String
deriving DecidableEq

/-- Modelled from the spec: the generated message contract
`GetPlayerRankResponse`. -/
structure GetPlayerRankResponse where
  rank : Option Nat
  score : Option Int
  bestScore : Option Int
  percentile : Rat
  totalEntries : Nat
  bracket : Option BracketInfo
  globalRank : Option Nat
deriving DecidableEq

/-- The typed Connect client `this.client` the facade wraps: one remote
call per operation, each completing with either its typed response or a
raw failure value (a thrown transport exception or a protocol error). -/
structure AscndServiceClient where
  submitScore : SubmitScoreRequest → Except RawValue SubmitScoreResponse
  getLeaderboard : GetLeaderboardRequest → Except RawValue GetLeaderboardResponse
  getPlayerRank : GetPlayerRankRequest → Except RawValue GetPlayerRankResponse

/-- The try/catch body shared by the three facade operations: return
the typed response unchanged on success, and on any failure throw the
normalized error instead. -/
def tryOp {α β : Type} (call : α → Except RawValue β) (req : α) :
    Except AscndError β :=
  match call req with
  | .ok resp => .ok resp
  | .error e => .error (AscndClient.convertError e)

/-- `AscndClient.submitScore`. -/
def AscndClient.submitScore (c : AscndServiceClient) (req : SubmitScoreRequest) :
    Except AscndError SubmitScoreResponse :=
  tryOp c.submitScore req

/-- `AscndClient.getLeaderboard`. -/
def AscndClient.getLeaderboard (c : AscndServiceClient) (req : GetLeaderboardRequest) :
    Except AscndError GetLeaderboardResponse :=
  tryOp c.getLeaderboard req

/-- `AscndClient.getPlayerRank`. -/
def AscndClient.getPlayerRank (c : AscndServiceClient) (req : GetPlayerRankRequest) :
    Except AscndError GetPlayerRankResponse :=
  tryOp c.getPlayerRank req

/-- Concrete not-found protocol error with an empty detail list. -/
def c1NotFoundErr : ConnectError :=
  { message := "resource not found", code := ⟨"NOT_FOUND"⟩, details := [] }

/-- Concrete config with an empty base URL. -/
def c2Cfg : AscndClientConfig :=
  { baseUrl := "", apiKey := "key", timeout := .undef }

/-- Concrete submit request. -/
def c3SubmitReq : SubmitScoreRequest :=
  { leaderboardId := "high-scores", playerId := "p1", score := 1000,
    metadata := none, idempotencyKey := none }

/-- Concrete leaderboard request. -/
def c3LbReq : GetLeaderboardRequest :=
  { leaderboardId := "high-scores", limit := 10, offset := 0,
    period := "current", viewSlug := none }

/-- Concrete player-rank request. -/
def c3PrReq : GetPlayerRankRequest :=
  { leaderboardId := "high-scores", playerId := "p1",
    period := none, viewSlug := none }

/-- Concrete leaderboard response. -/
def c3LbResp : GetLeaderboardResponse :=
  { entries := [], totalEntries := 0, periodStart := 0, periodEnd := none,
    hasMore := false, view := none }

/-- Concrete service client: the submit call fails with a plain error,
the leaderboard call succeeds, the rank call fails with a thrown
string. -/
def c3Client : AscndServiceClient :=
  { submitScore := fun _ => .error (.errorObj "boom")
    getLeaderboard := fun _ => .ok c3LbResp
    getPlayerRank := fun _ => .error (.other "thrown string") }

/-- Concrete valid config. -/
def c4Cfg : AscndClientConfig :=
  { baseUrl := "https://api.ascnd.gg", apiKey := "secret-key", timeout := .undef }

/-- Concrete outgoing request carrying an unrelated header. -/
def c4Req : Request :=
  { header := [("accept", "application/grpc-web")], body := "payload" }

/-- Concrete config whose base URL ends in two slashes. -/
def c5Cfg : AscndClientConfig :=
  { baseUrl := "https://api.ascnd.gg//", apiKey := "key", timeout := .undef }

/-- Concrete config whose base URL ends in a single slash. -/
def c5OneSlashCfg : AscndClientConfig :=
  { baseUrl := "https://api.ascnd.gg/", apiKey := "key", timeout := .undef }

/-- Concrete valid config with no timeout supplied. -/
def c6Cfg : AscndClientConfig :=
  { baseUrl := "https://api.ascnd.gg", apiKey := "key", timeout := .undef }

/-- Concrete valid config with timeout 1000. -/
def c6ValCfg : AscndClientConfig :=
  { baseUrl := "https://api.ascnd.gg", apiKey := "key", timeout := .val 1000 }

/-- Concrete valid config with a null timeout. -/
def c10NullCfg : AscndClientConfig :=
  { baseUrl := "https://api.ascnd.gg", apiKey := "key", timeout := .null }

/-- Concrete valid config with timeout 0. -/
def c10ZeroCfg : AscndClientConfig :=
  { baseUrl := "https://api.ascnd.gg", apiKey := "key", timeout := .val 0 }

/-- Concrete valid config with a negative timeout. -/
def c10NegCfg : AscndClientConfig :=
  { baseUrl := "https://api.ascnd.gg", apiKey := "key", timeout := .val (-250) }

/-- Setting a header makes it present with the new value. -/
theorem Headers.get_set_self (h : Headers) (n v : String) :
    (h.set n v).get n = some v := by
  have hnone : (h.filter (fun p => p.1 != n)).find? (fun p => p.1 == n) = none := by
    rw [List.find?_eq_none]
    intro x hx
    have hq := List.of_mem_filter hx
    simp only [bne_iff_ne, ne_eq] at hq
    simp only [beq_iff_eq]
    exact hq
  simp [Headers.set, Headers.get, List.find?_append, hnone, List.find?_cons]

/-- Setting a header leaves every other header name unchanged. -/
theorem Headers.get_set_of_ne (h : Headers) (n v m : String) (hm : m ≠ n) :
    (h.set n v).get m = h.get m := by
  have hnm : (n == m) = false := by
    simp only [beq_eq_false_iff_ne, ne_eq]
    exact fun hs => hm hs.symm
  have key : ∀ l : Headers,
      (l.filter (fun p => p.1 != n)).find? (fun p => p.1 == m) =
        l.find? (fun p => p.1 == m) := by
    intro l
    induction l with
    | nil => rfl
    | cons p t ih =>
        by_cases hp : p.1 = n
        · have hb1 : (p.1 != n) = false := by simp [hp]
          have hb2 : (p.1 == m) = false := by rw [hp]; exact hnm
          simp [List.filter_cons, List.find?_cons, hb1, hb2, ih]
        · have hb1 : (p.1 != n) = true := by simp [hp]
          by_cases hq : p.1 = m
          · have hb2 : (p.1 == m) = true := by simp [hq]
            simp [List.filter_cons, List.find?_cons, hb1, hb2]
          · have hb2 : (p.1 == m) = false := by simp [hq]
            simp [List.filter_cons, List.find?_cons, hb1, hb2, ih]
  simp [Headers.set, Headers.get, List.find?_append, key, List.find?_cons, hnm]

/-- On a config with non-empty base URL and API key, the constructor
reaches `createGrpcWebTransport` with exactly the documented options. -/
theorem construct_ok (cfg : AscndClientConfig)
    (h1 : cfg.baseUrl ≠ "") (h2 : cfg.apiKey ≠ "") :
    AscndClient.construct cfg = .ok
      { baseUrl := replaceTrailingSlash cfg.baseUrl
        interceptors := [authInterceptor cfg.apiKey]
        defaultTimeoutMs := cfg.timeout.coalesce 30000 } := by
  simp [AscndClient.construct, AscndClient.constructWith, h1, h2]

/-- C1: for every raw failure that is a structured protocol error
carrying a code and an optional detail list, the normalizer returns an
`AscndError` whose message equals the raw error's message, whose code
equals the raw error's code token, and whose details field is
`{details: raw.details}` when the detail list is non-empty and absent
when the detail list is empty. -/
theorem convertError_connect_error (e : ConnectError) :
    (AscndClient.convertError (.connectErr e)).message = e.message ∧
    (AscndClient.convertError (.connectErr e)).code = e.code.toStr ∧
    (e.details ≠ [] →
      (AscndClient.convertError (.connectErr e)).details = some ⟨e.details⟩) ∧
    (e.details = [] →
      (AscndClient.convertError (.connectErr e)).details = none) := by
  refine ⟨rfl, rfl, fun hne => ?_, fun he => ?_⟩
  · have hz : e.details.length ≠ 0 := by
      simpa [List.length_eq_zero] using hne
    simp [AscndClient.convertError, hz]
  · simp [AscndClient.convertError, he]

/-- Witness for C1 at a concrete not-found protocol error with an
empty detail list. -/
theorem convertError_connect_error_witness :
    (AscndClient.convertError (.connectErr c1NotFoundErr)).message = "resource not found" ∧
    (AscndClient.convertError (.connectErr c1NotFoundErr)).code = "NOT_FOUND" ∧
    (AscndClient.convertError (.connectErr c1NotFoundErr)).details = none :=
  ⟨(convertError_connect_error c1NotFoundErr).1,
   (convertError_connect_error c1NotFoundErr).2.1,
   (convertError_connect_error c1NotFoundErr).2.2.2 rfl⟩

/-- C2: for every config whose base URL or API key is empty,
construction fails with a `ConfigurationError`, and the failure is
produced without the transport capability ever being invoked: the
error result is the same for every possible `createGrpcWebTransport`. -/
theorem construct_empty_config_fails (cfg : AscndClientConfig)
    (h : cfg.baseUrl = "" ∨ cfg.apiKey = "")
    (τ : Type) (createGrpcWebTransport : GrpcWebTransportOptions → τ) :
    ∃ err : ConfigurationError,
      AscndClient.constructWith createGrpcWebTransport cfg = .error err ∧
      (err.message = "baseUrl is required" ∨ err.message = "apiKey is required") := by
  by_cases hb : cfg.baseUrl = ""
  · exact ⟨⟨"baseUrl is required"⟩, by simp [AscndClient.constructWith, hb], Or.inl rfl⟩
  · have ha : cfg.apiKey = "" := h.resolve_left hb
    exact ⟨⟨"apiKey is required"⟩, by simp [AscndClient.constructWith, hb, ha], Or.inr rfl⟩

/-- Witness for C2 at a concrete config with an empty base URL. -/
theorem construct_empty_config_fails_witness :
    ∃ err : ConfigurationError,
      AscndClient.constructWith (fun _ => ()) c2Cfg = .error err ∧
      (err.message = "baseUrl is required" ∨ err.message = "apiKey is required") :=
  construct_empty_config_fails c2Cfg (Or.inl rfl) Unit (fun _ => ())

/-- C3: each of the three operations returns the transport's typed
response unchanged on success, and on any raw failure the caller
observes exactly the `AscndError` produced by the normalizer, never the
raw value. -/
theorem ops_pass_through_and_normalize (c : AscndServiceClient) :
    (∀ req resp, c.submitScore req = .ok resp →
      AscndClient.submitScore c req = .ok resp) ∧
    (∀ req raw, c.submitScore req = .error raw →
      AscndClient.submitScore c req = .error (AscndClient.convertError raw)) ∧
    (∀ req resp, c.getLeaderboard req = .ok resp →
      AscndClient.getLeaderboard c req = .ok resp) ∧
    (∀ req raw, c.getLeaderboard req = .error raw →
      AscndClient.getLeaderboard c req = .error (AscndClient.convertError raw)) ∧
    (∀ req resp, c.getPlayerRank req = .ok resp →
      AscndClient.getPlayerRank c req = .ok resp) ∧
    (∀ req raw, c.getPlayerRank req = .error raw →
      AscndClient.getPlayerRank c req = .error (AscndClient.convertError raw)) := by
  refine ⟨?_, ?_, ?_, ?_, ?_, ?_⟩ <;> intro req x hx <;>
    simp [AscndClient.submitScore, AscndClient.getLeaderboard,
      AscndClient.getPlayerRank, tryOp, hx]

/-- Witness for C3 at a concrete service client: a failing submit call
surfaces the normalized error and a succeeding leaderboard call passes
its response through. -/
theorem ops_pass_through_and_normalize_witness :
    AscndClient.submitScore c3Client c3SubmitReq =
      .error (AscndClient.convertError (.errorObj "boom")) ∧
    AscndClient.getLeaderboard c3Client c3LbReq = .ok c3LbResp ∧
    AscndClient.getPlayerRank c3Client c3PrReq =
      .error (AscndClient.convertError (.other "thrown string")) :=
  ⟨(ops_pass_through_and_normalize c3Client).2.1 c3SubmitReq (.errorObj "boom") rfl,
   (ops_pass_through_and_normalize c3Client).2.2.1 c3LbReq c3LbResp rfl,
   (ops_pass_through_and_normalize c3Client).2.2.2.2.2 c3PrReq (.other "thrown string") rfl⟩

/-- C4: for every valid config, construction succeeds, the auth
interceptor is the sole chain link, and every issued call carries the
header `x-api-key` equal to the configured API key while its body and
all other headers are forwarded unchanged. -/
theorem issued_call_has_api_key_header (cfg : AscndClientConfig)
    (h1 : cfg.baseUrl ≠ "") (h2 : cfg.apiKey ≠ "") :
    ∃ opts, AscndClient.construct cfg = .ok opts ∧
      opts.interceptors = [authInterceptor cfg.apiKey] ∧
      ∀ req : Request,
        (issuedRequest opts req).header.get "x-api-key" = some cfg.apiKey ∧
        (issuedRequest opts req).body = req.body ∧
        ∀ name : String, name ≠ "x-api-key" →
          (issuedRequest opts req).header.get name = req.header.get name := by
  refine ⟨_, construct_ok cfg h1 h2, rfl, fun req => ⟨?_, rfl, fun name hn => ?_⟩⟩
  · exact Headers.get_set_self req.header "x-api-key" cfg.apiKey
  · exact Headers.get_set_of_ne req.header "x-api-key" cfg.apiKey name hn

/-- Witness for C4 at a concrete config and request. -/
theorem issued_call_has_api_key_header_witness :
    ∃ opts, AscndClient.construct c4Cfg = .ok opts ∧
      opts.interceptors = [authInterceptor "secret-key"] ∧
      ∀ req : Request,
        (issuedRequest opts req).header.get "x-api-key" = some "secret-key" ∧
        (issuedRequest opts req).body = req.body ∧
        ∀ name : String, name ≠ "x-api-key" →
          (issuedRequest opts req).header.get name = req.header.get name :=
  issued_call_has_api_key_header c4Cfg (by decide) (by decide)

/-- C5 counterexample: a base URL ending in two slashes yields a target
URL that still ends in a slash, refuting the claim that an endpoint
ending in one or more slash characters produces a target ending in
none. -/
theorem double_trailing_slash_not_fully_stripped :
    ∃ opts, AscndClient.construct c5Cfg = .ok opts ∧
      opts.baseUrl = "https://api.ascnd.gg/" ∧
      opts.baseUrl.data.getLast? = some '/' := by
  refine ⟨_, construct_ok c5Cfg (by decide) (by decide), ?_, ?_⟩ <;> decide

/-- C5 amended: the connection targets the base URL with a single
trailing slash removed when one is present; when the base URL has at
most one trailing slash the target ends in none. -/
theorem single_trailing_slash_stripped (cfg : AscndClientConfig)
    (h1 : cfg.baseUrl ≠ "") (h2 : cfg.apiKey ≠ "") :
    ∃ opts, AscndClient.construct cfg = .ok opts ∧
      opts.baseUrl = replaceTrailingSlash cfg.baseUrl ∧
      (cfg.baseUrl.data.getLast? = some '/' →
        opts.baseUrl.data = cfg.baseUrl.data.dropLast) ∧
      (cfg.baseUrl.data.getLast? ≠ some '/' →
        opts.baseUrl = cfg.baseUrl) ∧
      (cfg.baseUrl.data.dropLast.getLast? ≠ some '/' →
        opts.baseUrl.data.getLast? ≠ some '/') := by
  refine ⟨_, construct_ok cfg h1 h2, rfl, fun hs => ?_, fun hs => ?_, fun hd => ?_⟩
  · simp [replaceTrailingSlash, hs]
  · simp [replaceTrailingSlash, hs]
  · by_cases hs : cfg.baseUrl.data.getLast? = some '/'
    · simpa [replaceTrailingSlash, hs] using hd
    · simp [replaceTrailingSlash, hs]

/-- Witness for the amended C5 at a base URL with a single trailing
slash. -/
theorem single_trailing_slash_stripped_witness :
    ∃ opts, AscndClient.construct c5OneSlashCfg = .ok opts ∧
      opts.baseUrl = replaceTrailingSlash c5OneSlashCfg.baseUrl ∧
      (c5OneSlashCfg.baseUrl.data.getLast? = some '/' →
        opts.baseUrl.data = c5OneSlashCfg.baseUrl.data.dropLast) ∧
      (c5OneSlashCfg.baseUrl.data.getLast? ≠ some '/' →
        opts.baseUrl = c5OneSlashCfg.baseUrl) ∧
      (c5OneSlashCfg.baseUrl.data.dropLast.getLast? ≠ some '/' →
        opts.baseUrl.data.getLast? ≠ some '/') :=
  single_trailing_slash_stripped c5OneSlashCfg (by decide) (by decide)

/-- C6: for every valid config with no timeout supplied, the per-call
deadline handed to the transport is 30000 milliseconds; a supplied
timeout value is applied as the per-call ceiling. -/
theorem default_timeout_30000 (cfg : AscndClientConfig)
    (h1 : cfg.baseUrl ≠ "") (h2 : cfg.apiKey ≠ "") :
    (cfg.timeout = .undef →
      ∃ opts, AscndClient.construct cfg = .ok opts ∧
        opts.defaultTimeoutMs = 30000) ∧
    (∀ t : Int, cfg.timeout = .val t →
      ∃ opts, AscndClient.construct cfg = .ok opts ∧
        opts.defaultTimeoutMs = t) := by
  constructor
  · intro h
    exact ⟨_, construct_ok cfg h1 h2, by simp [h, JsNullable.coalesce]⟩
  · intro t h
    exact ⟨_, construct_ok cfg h1 h2, by simp [h, JsNullable.coalesce]⟩

/-- Witness for C6 at a config with no timeout and one with timeout
1000. -/
theorem default_timeout_30000_witness :
    (∃ opts, AscndClient.construct c6Cfg = .ok opts ∧
      opts.defaultTimeoutMs = 30000) ∧
    (∃ opts, AscndClient.construct c6ValCfg = .ok opts ∧
      opts.defaultTimeoutMs = 1000) :=
  ⟨(default_timeout_30000 c6Cfg (by decide) (by decide)).1 rfl,
   (default_timeout_30000 c6ValCfg (by decide) (by decide)).2 1000 rfl⟩

/-- C7: a raw failure that is a generic error object carrying a
message normalizes to an `AscndError` with that same message and code
"UNKNOWN". -/
theorem convertError_generic_error (msg : String) :
    AscndClient.convertError (.errorObj msg) =
      { message := msg, code := "UNKNOWN", details := none } :=
  rfl

/-- C8: a raw failure that carries neither a protocol error shape nor
a message normalizes to the fallback `AscndError`, and the normalizer
is total: it returns an `AscndError` for every raw value. -/
theorem convertError_fallback_total (payload : String) :
    AscndClient.convertError (.other payload) =
      { message := "Unknown error occurred", code := "UNKNOWN", details := none } ∧
    ∀ r : RawValue, ∃ a : AscndError, AscndClient.convertError r = a :=
  ⟨rfl, fun r => ⟨AscndClient.convertError r, rfl⟩⟩

/-- C9: an error instance whose message is the empty string normalizes
to an `AscndError` with the empty message, not to the fallback message:
classification dispatches on the value's type, not on whether a
non-empty message is present. -/
theorem convertError_empty_message_not_fallback :
    AscndClient.convertError (.errorObj "") =
      { message := "", code := "UNKNOWN", details := none } ∧
    (AscndClient.convertError (.errorObj "")).message ≠ "Unknown error occurred" := by
  constructor
  · rfl
  · decide

/-- C10: the 30000 default applies exactly when the timeout option is
null or undefined; any supplied numeric value, including 0 and negative
numbers, is passed through as the per-call deadline unvalidated. -/
theorem timeout_passthrough_unvalidated (cfg : AscndClientConfig)
    (h1 : cfg.baseUrl ≠ "") (h2 : cfg.apiKey ≠ "") :
    ((cfg.timeout = .undef ∨ cfg.timeout = .null) →
      ∃ opts, AscndClient.construct cfg = .ok opts ∧
        opts.defaultTimeoutMs = 30000) ∧
    (∀ t : Int, cfg.timeout = .val t →
      ∃ opts, AscndClient.construct cfg = .ok opts ∧
        opts.defaultTimeoutMs = t) := by
  constructor
  · intro h
    refine ⟨_, construct_ok cfg h1 h2, ?_⟩
    rcases h with h | h <;> simp [h, JsNullable.coalesce]
  · intro t h
    exact ⟨_, construct_ok cfg h1 h2, by simp [h, JsNullable.coalesce]⟩

/-- Witness for C10 at a null timeout, a zero timeout, and a negative
timeout. -/
theorem timeout_passthrough_unvalidated_witness :
    (∃ opts, AscndClient.construct c10NullCfg = .ok opts ∧
      opts.defaultTimeoutMs = 30000) ∧
    (∃ opts, AscndClient.construct c10ZeroCfg = .ok opts ∧
      opts.defaultTimeoutMs = 0) ∧
    (∃ opts, AscndClient.construct c10NegCfg = .ok opts ∧
      opts.defaultTimeoutMs = -250) :=
  ⟨(timeout_passthrough_unvalidated c10NullCfg (by decide) (by decide)).1 (Or.inr rfl),
   (timeout_passthrough_unvalidated c10ZeroCfg (by decide) (by decide)).2 0 rfl,
   (timeout_passthrough_unvalidated c10NegCfg (by decide) (by decide)).2 (-250) rfl⟩

end Ascnd
